import Mathlib

/-!
Verification development for the Anneal equivalence pipeline.

This file gives a shallow embedding of the core of the repository:

* the differential test runner (`src/stages/diff_test.py`,
  `run_differential_test_impl`), modelled as a pure function over an
  environment describing the outcomes of the external processes it spawns,
  together with an explicit event trace of those invocations;
* the equivalence-state bookkeeping and stage-gate predicate
  (`src/stages/llm.py`, `update_test_state_from_report` and
  `can_submit_current_stage`);
* the capability sandbox of the tool dispatcher (`src/stages/llm.py`,
  `execute_tool_call`, branches `read_lean_file` / `write_lean_file` /
  `write_text_file`), with the file tree modelled as a map from path
  strings to file contents;
* the two repair loops (`src/stages/translation.py`,
  `_repair_project_until_builds`, and `src/main.py`,
  `ProjectProcessor.repair_until_build_targeted`), modelled as bounded
  loops over an oracle describing what happens at each iteration.

The constants `DIFF_REQUIRED_RUNS`, `DIFF_MIN_CASES_PER_RUN` and
`MAX_REPAIR_TURNS_GLOBAL` are imported by the stage modules but are not
defined in the `helpers.py` that ships under `src/` (the repository mixes
several historical snapshots); they are therefore modelled as parameters.
`DIFF_SEED_START = 1` and `MAX_REPAIR_TURNS = 30` are defined in the source
and kept concrete where needed.
-/

namespace Anneal

/-! ## Python string primitives

Characters Python `str.strip()` removes (ASCII whitespace; the exotic
unicode whitespace characters never occur in the pipeline's data). -/
def pyIsSpace (c : Char) : Bool :=
  c == ' ' || c == '\t' || c == '\n' || c == '\r' || c == '\x0b' || c == '\x0c'

/-- Python `s.strip()`. -/
def pyStrip (s : String) : String :=
  String.mk (((s.data.dropWhile pyIsSpace).reverse.dropWhile pyIsSpace).reverse)

/-- Helper for `pySplitChar`: accumulates the current field. -/
def splitCharAux (sep : Char) : List Char → List Char → List String
  | [], acc => [String.mk acc.reverse]
  | c :: rest, acc =>
    if c == sep then String.mk acc.reverse :: splitCharAux sep rest []
    else splitCharAux sep rest (c :: acc)

/-- Python `s.split(sep)` for a single-character separator. -/
def pySplitChar (s : String) (sep : Char) : List String :=
  splitCharAux sep s.data []

/-- Helper for `pySplitlines`. Python `str.splitlines()` restricted to the
line terminators that occur in the pipeline (`\n`, `\r\n`, `\r`). -/
def splitlinesAux : List Char → List Char → List String
  | [], [] => []
  | [], acc => [String.mk acc.reverse]
  | '\r' :: '\n' :: rest, acc => String.mk acc.reverse :: splitlinesAux rest []
  | '\r' :: rest, acc => String.mk acc.reverse :: splitlinesAux rest []
  | '\n' :: rest, acc => String.mk acc.reverse :: splitlinesAux rest []
  | c :: rest, acc => splitlinesAux rest (c :: acc)

/-- Python `s.splitlines()`. -/
def pySplitlines (s : String) : List String :=
  splitlinesAux s.data []

/-- Boolean prefix test on character lists. -/
def listIsPrefix : List Char → List Char → Bool
  | [], _ => true
  | _ :: _, [] => false
  | a :: as, b :: bs => a == b && listIsPrefix as bs

/-- Boolean infix test on character lists. -/
def listIsInfix (pat : List Char) : List Char → Bool
  | [] => listIsPrefix pat []
  | c :: rest => listIsPrefix pat (c :: rest) || listIsInfix pat rest

/-- Python `pre in s` is `strContains s pre`; substring containment. -/
def strContains (s pat : String) : Bool :=
  listIsInfix pat.data s.data

/-- Python `s.startswith(pre)`. -/
def strStartsWith (s pre : String) : Bool :=
  listIsPrefix pre.data s.data

/-- Python `s.endswith(post)`. -/
def strEndsWith (s post : String) : Bool :=
  listIsPrefix post.data.reverse s.data.reverse

/-- Python `s.upper()` (ASCII). -/
def pyUpper (s : String) : String :=
  String.mk (s.data.map Char.toUpper)

/-- Python `s.replace("\\", "/")` as used by the path normalizers. -/
def replaceBackslashes (s : String) : String :=
  String.mk (s.data.map (fun c => if c == '\\' then '/' else c))

/-- `trunc` from `src/main.py`: keep the first `n` characters and append a
truncation marker recording the total length. -/
def truncS (s : String) (n : Nat) : String :=
  if s.data.length ≤ n then s
  else String.mk (s.data.take n) ++ "\n... (truncated, total " ++
    toString s.data.length ++ " chars)"

/-! ## Differential test runner (`src/stages/diff_test.py`)

`run_differential_test_impl` spawns external processes (generator, the two
harnesses) and shells out to compilers and `lake`.  The embedding abstracts
each external interaction into an environment `DiffEnv`; the runner itself
becomes a pure function returning the JSON report (as a `Report` record
mirroring the JSON dictionaries) together with the ordered trace of
external invocations (`DiffEvent`), which makes claims such as "no later
seed is generated" and "compilation is attempted" expressible. -/

/-- Outcome of a `subprocess.run` call wrapped in try/except in the source:
wall-clock timeout, any other exception, or completion with an exit code
and captured stdout/stderr. -/
inductive ProcOutcome where
  | timeout
  | exn (msg : String)
  | done (rc : Int) (out err : String)

/-- Record of one passing run, mirroring the dict
`{"seed": .., "cases": .., "outputs": .., "status": "pass"}`. -/
structure RunRec where
  seed : Nat
  cases : Nat
  outputs : Nat
  status : String
deriving Repr, DecidableEq

/-- The runner's JSON report, as a record with optional fields mirroring
the keys that appear in the various `json.dumps` calls.  The
`no_output` report's `input_lines` key is carried in `cases`. -/
structure Report where
  status : String
  whereTag : Option String := none
  seed : Option Nat := none
  message : Option String := none
  cases : Option Nat := none
  cOut : Option String := none
  leanOut : Option String := none
  passedRuns : Option Nat := none
  requiredRuns : Option Nat := none
  minCasesPerRun : Option Nat := none
  runs : List RunRec := []
deriving Repr, DecidableEq

/-- Configuration of the runner.  `requiredRuns` and `minCasesPerRun` stand
for `DIFF_REQUIRED_RUNS` and `DIFF_MIN_CASES_PER_RUN` (imported by the
stage modules but absent from the shipped `helpers.py`); `seedStart` is
`DIFF_SEED_START`; `harnessEndsWithC` is the test
`str(source_harness).endswith(".c")` guarding the C compile phase. -/
structure DiffConfig where
  requiredRuns : Nat
  minCasesPerRun : Nat
  seedStart : Nat
  harnessEndsWithC : Bool := true

/-- `DIFF_SEED_START` from `src/helpers.py`. -/
def DIFF_SEED_START : Nat := 1

/-- Environment of one invocation of the runner: results of the compile and
build steps, and for each seed the outcome of the generator, the C harness
and the Lean harness processes. -/
structure DiffEnv where
  leanHarnessFound : Bool
  harnessCompile : Int × String × String
  projCompiles : List (Int × String × String)
  link : Int × String × String
  lakeBuildOut : String
  lakeHarnessBuildOut : String
  gen : Nat → ProcOutcome
  cRun : Nat → ProcOutcome
  leanRun : Nat → ProcOutcome

/-- Trace of the external invocations the runner performs, in order. -/
inductive DiffEvent where
  | compileHarness
  | compileProjSrc (i : Nat)
  | link
  | lakeBuild
  | lakeHarnessBuild
  | genInvoke (seed : Nat)
  | cRunInvoke (seed : Nat)
  | leanRunInvoke (seed : Nat)
deriving Repr, DecidableEq

/-- Events that invoke the generator or one of the harnesses (as opposed to
compiling or building). -/
def isInvokeEvent : DiffEvent → Bool
  | .genInvoke _ => true
  | .cRunInvoke _ => true
  | .leanRunInvoke _ => true
  | _ => false

/-- The seeds passed to the generator, in invocation order. -/
def genSeeds (evs : List DiffEvent) : List Nat :=
  evs.filterMap (fun e => match e with | .genInvoke s => some s | _ => none)

/-- `lines = [ln for ln in inputs.splitlines() if ln.strip() != ""]`
(diff_test.py line 254). -/
def genLines (out : String) : List String :=
  (pySplitlines out).filter (fun ln => !(pyStrip ln == ""))

/-- `[l.strip() for l in c_out.strip().split('\n') if l.strip()]`
(diff_test.py line 350). -/
def cOutputLines (cOut : String) : List String :=
  (((pySplitChar (pyStrip cOut) '\n').filter (fun l => !(pyStrip l == ""))).map pyStrip)

/-- Result of the body of the per-seed loop: either an early-return report
(with the events of that iteration) or a passing run record. -/
inductive StepRes where
  | fail (rep : Report) (evs : List DiffEvent)
  | pass (rcd : RunRec) (evs : List DiffEvent)

/-- One iteration of the per-seed loop of `run_differential_test_impl`
(diff_test.py lines 227-375) at a given seed. -/
def seedStep (cfg : DiffConfig) (env : DiffEnv) (seed : Nat) : StepRes :=
  match env.gen seed with
  | .timeout =>
    .fail { status := "timeout", whereTag := some "generator", seed := some seed }
      [.genInvoke seed]
  | .exn m =>
    .fail { status := "error", whereTag := some "generator", seed := some seed,
            message := some m } [.genInvoke seed]
  | .done rc gOut _gErr =>
    if rc != 0 then
      .fail { status := "error", whereTag := some "generator", seed := some seed,
              message := some "Generator must accept --seed and --n and exit 0." }
        [.genInvoke seed]
    else
      let numCases := (genLines gOut).length
      if numCases < cfg.minCasesPerRun then
        .fail { status := "insufficient_tests", whereTag := some "generator",
                seed := some seed } [.genInvoke seed]
      else
        match env.cRun seed with
        | .timeout =>
          .fail { status := "timeout", whereTag := some "c_run", seed := some seed }
            [.genInvoke seed, .cRunInvoke seed]
        | .exn m =>
          .fail { status := "error", whereTag := some "c_run", seed := some seed,
                  message := some m } [.genInvoke seed, .cRunInvoke seed]
        | .done crc cOut _cErr =>
          if crc != 0 then
            .fail { status := "error", whereTag := some "c_run", seed := some seed }
              [.genInvoke seed, .cRunInvoke seed]
          else
            match env.leanRun seed with
            | .timeout =>
              .fail { status := "timeout", whereTag := some "lean_run", seed := some seed }
                [.genInvoke seed, .cRunInvoke seed, .leanRunInvoke seed]
            | .exn m =>
              .fail { status := "error", whereTag := some "lean_run", seed := some seed,
                      message := some m }
                [.genInvoke seed, .cRunInvoke seed, .leanRunInvoke seed]
            | .done lrc lOut _lErr =>
              if lrc != 0 then
                .fail { status := "error", whereTag := some "lean_run", seed := some seed }
                  [.genInvoke seed, .cRunInvoke seed, .leanRunInvoke seed]
              else
                let isMatch := cOut == lOut
                let numOutputs := (cOutputLines cOut).length
                if numOutputs == 0 then
                  .fail { status := "no_output", whereTag := some "output_coverage",
                          seed := some seed, cases := some numCases,
                          message := some "C harness produced no output at all. Tests must produce output to verify behavior." }
                    [.genInvoke seed, .cRunInvoke seed, .leanRunInvoke seed]
                else if isMatch then
                  .pass { seed := seed, cases := numCases, outputs := numOutputs,
                          status := "pass" }
                    [.genInvoke seed, .cRunInvoke seed, .leanRunInvoke seed]
                else
                  .fail { status := "diff", whereTag := some "compare", seed := some seed,
                          cases := some numCases,
                          message := some "Outputs differ; fix Lean semantics or harness to match C.",
                          cOut := some (truncS cOut 2500),
                          leanOut := some (truncS lOut 2500) }
                    [.genInvoke seed, .cRunInvoke seed, .leanRunInvoke seed]

/-- The per-seed loop `for k in range(DIFF_REQUIRED_RUNS)` with its pass
counter and run-record accumulator, returning the final report and the
trace of invocations.  Arguments: remaining iterations, current index `k`,
`passed`, `runs`. -/
def runSeedLoop (cfg : DiffConfig) (env : DiffEnv) :
    Nat → Nat → Nat → List RunRec → Report × List DiffEvent
  | 0, _k, passed, runs =>
    ({ status := "success", passedRuns := some passed,
       requiredRuns := some cfg.requiredRuns,
       minCasesPerRun := some cfg.minCasesPerRun, runs := runs }, [])
  | r + 1, k, passed, runs =>
    match seedStep cfg env (cfg.seedStart + k) with
    | .fail rep evs => (rep, evs)
    | .pass rcd evs =>
      let rest := runSeedLoop cfg env r (k + 1) (passed + 1) (runs ++ [rcd])
      (rest.1, evs ++ rest.2)

/-- The loop compiling every project source file, stopping at the first
nonzero compiler exit code (diff_test.py lines 180-190).  Returns the index
of the first failure, if any, and the compile events performed. -/
def compileProjLoop : List (Int × String × String) → Nat → Option Nat × List DiffEvent
  | [], _ => (none, [])
  | (rc, _, _) :: rest, i =>
    if rc != 0 then (some i, [.compileProjSrc i])
    else
      let r := compileProjLoop rest (i + 1)
      (r.1, .compileProjSrc i :: r.2)

/-- The C-side compile phase (harness object, project objects, link), run
only when the harness path ends in `.c` (diff_test.py lines 123-201).
Returns an early error report, if any. -/
def sourceCompilePhase (env : DiffEnv) : Option Report × List DiffEvent :=
  if env.harnessCompile.1 != 0 then
    (some { status := "error", whereTag := some "source_compile",
            message := some "Harness compile failed" }, [.compileHarness])
  else
    match (compileProjLoop env.projCompiles 0).1 with
    | some _ =>
      (some { status := "error", whereTag := some "source_compile",
              message := some "Project source compile failed" },
       .compileHarness :: (compileProjLoop env.projCompiles 0).2)
    | none =>
      if env.link.1 != 0 then
        (some { status := "error", whereTag := some "source_link",
                message := some "Link failed" },
         .compileHarness :: (compileProjLoop env.projCompiles 0).2 ++ [.link])
      else (none, .compileHarness :: (compileProjLoop env.projCompiles 0).2 ++ [.link])

/-- `run_differential_test_impl` (diff_test.py lines 75-385): resolve the
Lean harness, compile the C side, build the Lean project and harness
target, then run the per-seed loop. -/
def runDifferentialTest (cfg : DiffConfig) (env : DiffEnv) : Report × List DiffEvent :=
  if !env.leanHarnessFound then
    ({ status := "error", whereTag := some "lean_harness",
       message := some "Lean harness not found" }, [])
  else
    let cPhase := if cfg.harnessEndsWithC then sourceCompilePhase env else (none, [])
    match cPhase with
    | (some rep, evs) => (rep, evs)
    | (none, evs0) =>
      if !(strStartsWith env.lakeBuildOut "Build Success") then
        ({ status := "error", whereTag := some "lean_build",
           message := some "Lean build failed" }, evs0 ++ [.lakeBuild])
      else if !(strStartsWith env.lakeHarnessBuildOut "Build Success") then
        ({ status := "error", whereTag := some "lean_harness_build",
           message := some "Lean harness does not typecheck" },
         evs0 ++ [.lakeBuild, .lakeHarnessBuild])
      else
        let res := runSeedLoop cfg env cfg.requiredRuns 0 0 []
        (res.1, evs0 ++ [.lakeBuild, .lakeHarnessBuild] ++ res.2)

/-- All checks before the per-seed loop pass. -/
def preflightPasses (cfg : DiffConfig) (env : DiffEnv) : Bool :=
  env.leanHarnessFound &&
  (!cfg.harnessEndsWithC ||
    (env.harnessCompile.1 == 0 && env.projCompiles.all (fun t => t.1 == 0) &&
     env.link.1 == 0)) &&
  strStartsWith env.lakeBuildOut "Build Success" &&
  strStartsWith env.lakeHarnessBuildOut "Build Success"

/-! ## Equivalence state and stage gate (`src/stages/llm.py`) -/

/-- The `ctx["equiv_state"]` dictionary.  `lastReportPresent` models the
truthiness of `last_report`. -/
structure EquivState where
  lastReportPresent : Bool
  lastStatus : String
  passedRuns : Nat
  requiredRuns : Nat
  minCasesPerRun : Nat
deriving Repr, DecidableEq

/-- `update_test_state_from_report` (llm.py lines 145-159) on a report that
parses as JSON — the runner always emits a JSON object with a `status` key,
so the parsed dict is non-empty and hence truthy.  `defRequired` and
`defMin` stand for the constants `DIFF_REQUIRED_RUNS` and
`DIFF_MIN_CASES_PER_RUN` used as `.get` defaults. -/
def updateTestStateFromReport (defRequired defMin : Nat) (st : EquivState)
    (rep : Report) : EquivState :=
  { st with
    lastReportPresent := true,
    lastStatus := rep.status,
    passedRuns := rep.passedRuns.getD 0,
    requiredRuns := rep.requiredRuns.getD defRequired,
    minCasesPerRun := rep.minCasesPerRun.getD defMin }

/-- State consulted by `can_submit_current_stage`: the current stage label,
the outputs of the `lake` builds it performs, the existence of the safety
case file, the equivalence state, and the `DIFF_REQUIRED_RUNS` constant. -/
structure SubmitCtx where
  currentStage : String
  lakeBuildOut : String
  lakeHarnessBuildOut : String
  safetyCaseExists : Bool
  equiv : EquivState
  diffRequiredRuns : Nat

/-- `can_submit_current_stage` (llm.py lines 162-216). -/
def canSubmitCurrentStage (ctx : SubmitCtx) : Bool × String :=
  let stage := pyUpper ctx.currentStage
  if stage == "COGENERATION" then
    if !(strStartsWith ctx.lakeBuildOut "Build Success") then
      (false, "lake build is not successful; fix build errors first.")
    else if !(strStartsWith ctx.lakeHarnessBuildOut "Build Success") then
      (false, "harness build failed; fix Spec.tests.Harness compilation errors.")
    else if !ctx.equiv.lastReportPresent then
      (false, "no differential test report yet; you must call run_differential_test.")
    else if !(ctx.equiv.lastStatus == "success") then
      (false, "differential testing has not succeeded; fix timeouts/diffs and rerun.")
    else if ctx.equiv.passedRuns < ctx.equiv.requiredRuns then
      (false, "insufficient successful runs; need " ++ toString ctx.diffRequiredRuns ++
        " passing seeds.")
    else (true, "")
  else if stage == "EQUIVALENCE" || stage == "HARDENING" || stage == "SPECIFICATION" then
    if !(strStartsWith ctx.lakeBuildOut "Build Success") then
      (false, "lake build is not successful; fix build errors first.")
    else if (stage == "EQUIVALENCE" || stage == "HARDENING") &&
        !(strStartsWith ctx.lakeHarnessBuildOut "Build Success") then
      (false, "harness build failed; fix Spec.tests.Harness compilation errors.")
    else if stage == "EQUIVALENCE" then
      if !ctx.equiv.lastReportPresent then
        (false, "no differential test report yet; you must call run_differential_test.")
      else if !(ctx.equiv.lastStatus == "success") then
        (false, "differential testing has not succeeded; fix timeouts/diffs and rerun.")
      else if ctx.equiv.passedRuns < ctx.equiv.requiredRuns then
        (false, "insufficient successful runs; need " ++ toString ctx.diffRequiredRuns ++
          " passing seeds.")
      else (true, "")
    else if stage == "HARDENING" then
      if !ctx.safetyCaseExists then
        (false, "safety case markdown file not written yet; write it to spec/reports.")
      else if !(ctx.equiv.lastStatus == "success") then
        (false, "differential testing not successful after hardening; rerun and fix.")
      else if ctx.equiv.passedRuns < ctx.diffRequiredRuns then
        (false, "need " ++ toString ctx.diffRequiredRuns ++ " passing seeds after hardening.")
      else (true, "")
    else (true, "")
  else (true, "")

/-- The `submit_stage` branch of `execute_tool_call` (llm.py lines 355-361):
output string and success flag. -/
def submitStageTool (ctx : SubmitCtx) (summary : String) : String × Bool :=
  let r := canSubmitCurrentStage ctx
  if !r.1 then ("Denied submit_stage: " ++ r.2, false)
  else ("Stage Submitted: " ++ summary, true)

/-! ## Capability sandbox (`src/stages/llm.py`, `src/main.py`, `src/helpers.py`) -/

/-- `_safe_relpath` (src/main.py lines 107-115): replace backslashes, strip
leading slashes, reject empty and traversal paths, drop empty and `.`
segments.  `none` models the raised `ValueError` (caught by the
dispatcher's generic handler, which returns a failed tool result). -/
def safeRelpath (p : String) : Option String :=
  let p1 := String.mk ((replaceBackslashes p).data.dropWhile (fun c => c == '/'))
  if p1 == "" || p1 == "." then none
  else
    let parts := (pySplitChar p1 '/').filter (fun x => !(x == "") && !(x == "."))
    if parts.any (fun x => x == "..") then none
    else some (String.intercalate "/" parts)

/-- `validate_basic_lean_shape` (src/helpers.py lines 189-200): non-empty,
must contain the namespace markers, and `sorry` is allowed only in
`Verif.lean`.  (The call site in llm.py passes the project name as an extra
leading argument — snapshot drift between modules; the shipped validator
takes `(rel_path, content)`, which is what is embedded here.) -/
def validateBasicLeanShape (relPath content : String) : Bool × String :=
  if pyStrip content == "" then (false, "Empty file")
  else if !(strContains content "namespace Src") then (false, "Missing namespace Src")
  else if !(strContains content "end Src") then (false, "Missing end Src")
  else if !(strEndsWith relPath "Verif.lean") && strContains content "sorry" then
    (false, "sorry not allowed outside Verif.lean")
  else (true, "")

/-- The file tree, as a map from path strings to file contents. -/
abbrev FS : Type := String → Option String

/-- Write one file (Python `_write_text_file`). -/
def fsWrite (fs : FS) (path content : String) : FS :=
  fun q => if q == path then some content else fs q

/-- Result of one tool call: output text and success flag. -/
structure ToolOut where
  output : String
  success : Bool
deriving Repr, DecidableEq

/-- The project/sandbox state consulted by the dispatcher. -/
structure SandboxCtx where
  name : String
  currentStage : String
  equivLastStatus : String
  lockedLeanPaths : List String
  allowedLeanWrites : List String
  allowedTextWrites : List String
  promptMode : Bool
  sourceRootStr : String
  specSrcRootStr : String

/-- The stage labels in which `Verif.lean` is reachable
(llm.py lines 276 and 296). -/
def verifStageOpen (stage : String) : Bool :=
  stage == "SPECIFICATION" || stage == "HARDENING" || stage == "VERIFICATION"

/-- The locked/allow-list/validator portion of the `write_lean_file` branch
(llm.py lines 301-318), after the `Verif.lean` gate. -/
def writeLeanChecked (ctx : SandboxCtx) (fs : FS) (rel content : String) :
    ToolOut × FS :=
  if ctx.lockedLeanPaths.contains rel then
    ({ output := "Denied: " ++ rel ++ " is locked (read-only).", success := false }, fs)
  else if !(ctx.allowedLeanWrites.contains rel) then
    ({ output := "Denied: " ++ rel ++ " is not in the autogenerated writable set.",
       success := false }, fs)
  else
    let v := validateBasicLeanShape rel content
    if !v.1 then
      ({ output := "Rejected content for " ++ rel ++ ": " ++ v.2, success := false }, fs)
    else
      ({ output := "Written to " ++ ctx.specSrcRootStr ++ "/" ++ rel, success := true },
       fsWrite fs (ctx.specSrcRootStr ++ "/" ++ rel) content)

/-- The `write_lean_file` branch of `execute_tool_call` (llm.py lines
290-318), after path normalization succeeded with `rel`. -/
def writeLeanRel (ctx : SandboxCtx) (fs : FS) (rel content : String) : ToolOut × FS :=
  let stage := pyUpper ctx.currentStage
  if rel == ctx.name ++ "/Verif.lean" && !(verifStageOpen stage) then
    ({ output := "Denied: Verif.lean is locked until Specification/Hardening.",
       success := false }, fs)
  else if rel == ctx.name ++ "/Verif.lean" && !(ctx.equivLastStatus == "success") then
    ({ output := "Denied: Equivalence has not succeeded; Verif.lean remains locked.",
       success := false }, fs)
  else writeLeanChecked ctx fs rel content

/-- The full `write_lean_file` branch including path normalization; a
normalization failure is the raised `ValueError` caught by the generic
handler (llm.py lines 367-368). -/
def writeLeanFile (ctx : SandboxCtx) (fs : FS) (path content : String) : ToolOut × FS :=
  match safeRelpath path with
  | none =>
    ({ output := "Tool execution error for write_lean_file", success := false }, fs)
  | some rel0 => writeLeanRel ctx fs (replaceBackslashes rel0) content

/-- The `read_lean_file` branch (llm.py lines 270-288), after path
normalization succeeded with `rel`.  Reads return success even when the
file is absent; only the `Verif.lean` gate produces a failed result. -/
def readLeanRel (ctx : SandboxCtx) (fs : FS) (rel : String) (maxRead : Nat) : ToolOut :=
  let stage := pyUpper ctx.currentStage
  if rel == ctx.name ++ "/Verif.lean" && !(verifStageOpen stage) &&
      !(ctx.equivLastStatus == "success") then
    { output := "Denied: Verif.lean is unavailable until after Equivalence succeeds.",
      success := false }
  else
    match fs (ctx.specSrcRootStr ++ "/" ++ rel) with
    | some content =>
      { output :=
          if maxRead < content.data.length then
            String.mk (content.data.take maxRead) ++ "\n\n-- TRUNCATED --"
          else content,
        success := true }
    | none => { output := "Error: Lean file not found " ++ rel, success := true }

/-- Whether a `write_text_file` path is allowed (llm.py lines 323-330):
either on the explicit text allow-list, or, in prompt mode, under the
generated-implementation root or `generated/`. -/
def textWriteAllowed (ctx : SandboxCtx) (rel : String) : Bool :=
  ctx.allowedTextWrites.contains rel ||
  (ctx.promptMode &&
    (strStartsWith rel (ctx.sourceRootStr ++ "/") || strStartsWith rel "generated/"))

/-- The `write_text_file` branch (llm.py lines 320-342), after path
normalization succeeded with `rel`. -/
def writeTextRel (ctx : SandboxCtx) (fs : FS) (rel content : String) : ToolOut × FS :=
  if !(textWriteAllowed ctx rel) then
    ({ output := "Denied: " ++ rel ++ " is not in the writable set.", success := false }, fs)
  else if pyStrip content == "" then
    ({ output := "Rejected: " ++ rel ++ " content is empty.", success := false }, fs)
  else
    ({ output := "Written to " ++ rel, success := true }, fsWrite fs rel content)

/-- The full `write_text_file` branch including path normalization. -/
def writeTextFile (ctx : SandboxCtx) (fs : FS) (path content : String) : ToolOut × FS :=
  match safeRelpath path with
  | none =>
    ({ output := "Tool execution error for write_text_file", success := false }, fs)
  | some rel0 => writeTextRel ctx fs (replaceBackslashes rel0) content

/-! ## Repair loops (`src/main.py`, `src/stages/translation.py`) -/

/-- `MAX_REPAIR_TURNS` from `src/main.py`. -/
def MAX_REPAIR_TURNS : Nat := 30

/-- What happens in one iteration of
`ProjectProcessor.repair_until_build_targeted` (main.py lines 560-648):
the first parseable diagnostic may be missing, outside `Spec/`, or name a
missing file (each falls back to the legacy freeform repair and returns);
the model may fail to call `write_lean_file` (raises); or a repair write
happens and the subsequent partial and full builds produce the given
outputs. -/
inductive TStep where
  | noParseableErrors
  | errorNotInSpec
  | fileMissing
  | noWriteCall
  | wrote (partialBuildOut fullBuildOut : String)

/-- Result of the targeted repair loop.  `exhaustedReturned` models the
fall-through after `for step in range(MAX_REPAIR_TURNS)`: the function
logs "repair loop exhausted; still failing." and returns normally, so the
caller proceeds. -/
inductive RepairOutcome where
  | alreadyPassing
  | repaired (stepsUsed : Nat)
  | fellBack (stepsUsed : Nat)
  | raised (msg : String)
  | exhaustedReturned
deriving Repr, DecidableEq

/-- The bounded loop of `repair_until_build_targeted`.  Arguments:
remaining iterations, current step index. -/
def repairTargetedLoop (env : Nat → TStep) : Nat → Nat → RepairOutcome
  | 0, _ => .exhaustedReturned
  | r + 1, step =>
    match env step with
    | .noParseableErrors => .fellBack step
    | .errorNotInSpec => .fellBack step
    | .fileMissing => .fellBack step
    | .noWriteCall => .raised "Model did not call write_lean_file in targeted repair."
    | .wrote pOut fOut =>
      if strStartsWith pOut "Build Success" then
        if strStartsWith fOut "Build Success" then .repaired step
        else repairTargetedLoop env r (step + 1)
      else repairTargetedLoop env r (step + 1)

/-- `ProjectProcessor.repair_until_build_targeted` (main.py lines 553-649):
return immediately when the initial build passes, otherwise run at most
`MAX_REPAIR_TURNS` repair iterations. -/
def repairUntilBuildTargeted (initialBuildOut : String) (env : Nat → TStep) :
    RepairOutcome :=
  if strStartsWith initialBuildOut "Build Success" then .alreadyPassing
  else repairTargetedLoop env MAX_REPAIR_TURNS 0

/-- What happens in one iteration of `_repair_project_until_builds`
(translation.py lines 207-253): the build may pass; with no parseable
error a missing-module repair may be possible (continue) or the loop is
stuck (raises); the diagnostic may point outside the spec root, to a
non-writable file, or to a file with no source mapping (each raises); or
the per-file repair runs and fails (raises) or succeeds (continue). -/
inductive GStep where
  | buildOk
  | missingModuleRepair
  | stuckNoError
  | errOutsideRoot
  | errNotWritable
  | noSourceMapping
  | fileRepairFailed
  | fileRepairSucceeded

/-- Result of the whole-project repair loop: normal return (the build
passed) or a raised `RuntimeError` aborting the pipeline run. -/
inductive GlobalRepairOutcome where
  | success (stepsUsed : Nat)
  | raised (msg : String)
deriving Repr, DecidableEq

/-- The bounded loop of `_repair_project_until_builds`.  Arguments:
remaining iterations, current step index. -/
def repairProjectLoop (env : Nat → GStep) : Nat → Nat → GlobalRepairOutcome
  | 0, _ => .raised "Global repair exceeded max steps; refusing to proceed."
  | r + 1, step =>
    match env step with
    | .buildOk => .success step
    | .missingModuleRepair => repairProjectLoop env r (step + 1)
    | .stuckNoError => .raised "Global repair stuck: no actionable error."
    | .errOutsideRoot => .raised "Error in file not under spec_src_root"
    | .errNotWritable => .raised "Cannot repair locked file"
    | .noSourceMapping => .raised "No source mapping"
    | .fileRepairFailed => .raised "Failed to repair"
    | .fileRepairSucceeded => repairProjectLoop env r (step + 1)

/-- `_repair_project_until_builds` (translation.py lines 203-255).
`maxTurnsGlobal` stands for the `MAX_REPAIR_TURNS_GLOBAL` constant
(imported by the stage module but absent from the shipped helpers). -/
def repairProjectUntilBuilds (maxTurnsGlobal : Nat) (env : Nat → GStep) :
    GlobalRepairOutcome :=
  repairProjectLoop env maxTurnsGlobal 0

/-! ## Supporting lemmas -/

/-- The events of a per-seed iteration, regardless of its outcome. -/
def stepEvs : StepRes → List DiffEvent
  | .fail _ e => e
  | .pass _ e => e

theorem genSeeds_append (a b : List DiffEvent) :
    genSeeds (a ++ b) = genSeeds a ++ genSeeds b := by
  simp [genSeeds]

theorem stepEvs_genSeeds (cfg : DiffConfig) (env : DiffEnv) (seed : Nat) :
    genSeeds (stepEvs (seedStep cfg env seed)) = [seed] := by
  cases hg : env.gen seed with
  | timeout => simp [seedStep, hg, stepEvs, genSeeds]
  | exn m => simp [seedStep, hg, stepEvs, genSeeds]
  | done rc gOut gErr =>
    by_cases hrc : rc != 0
    · simp [seedStep, hg, hrc, stepEvs, genSeeds]
    · by_cases hnc : (genLines gOut).length < cfg.minCasesPerRun
      · simp [seedStep, hg, hrc, hnc, stepEvs, genSeeds]
      · cases hcr : env.cRun seed with
        | timeout => simp [seedStep, hg, hrc, hnc, hcr, stepEvs, genSeeds]
        | exn m => simp [seedStep, hg, hrc, hnc, hcr, stepEvs, genSeeds]
        | done crc cOut cErr =>
          by_cases hcrc : crc != 0
          · simp [seedStep, hg, hrc, hnc, hcr, hcrc, stepEvs, genSeeds]
          · cases hlr : env.leanRun seed with
            | timeout => simp [seedStep, hg, hrc, hnc, hcr, hcrc, hlr, stepEvs, genSeeds]
            | exn m => simp [seedStep, hg, hrc, hnc, hcr, hcrc, hlr, stepEvs, genSeeds]
            | done lrc lOut lErr =>
              by_cases hlrc : lrc != 0
              · simp [seedStep, hg, hrc, hnc, hcr, hcrc, hlr, hlrc, stepEvs, genSeeds]
              · by_cases hno : (cOutputLines cOut).length == 0
                · simp [seedStep, hg, hrc, hnc, hcr, hcrc, hlr, hlrc, hno, stepEvs, genSeeds]
                · by_cases hm : cOut == lOut
                  · simp [seedStep, hg, hrc, hnc, hcr, hcrc, hlr, hlrc, hno, hm,
                      stepEvs, genSeeds]
                  · simp [seedStep, hg, hrc, hnc, hcr, hcrc, hlr, hlrc, hno, hm,
                      stepEvs, genSeeds]

theorem seedStep_fail_evs (cfg : DiffConfig) (env : DiffEnv) (seed : Nat)
    (rep : Report) (evs : List DiffEvent)
    (h : seedStep cfg env seed = .fail rep evs) : genSeeds evs = [seed] := by
  have h2 := stepEvs_genSeeds cfg env seed
  rw [h] at h2
  exact h2

theorem seedStep_pass_evs (cfg : DiffConfig) (env : DiffEnv) (seed : Nat)
    (rcd : RunRec) (evs : List DiffEvent)
    (h : seedStep cfg env seed = .pass rcd evs) : genSeeds evs = [seed] := by
  have h2 := stepEvs_genSeeds cfg env seed
  rw [h] at h2
  exact h2

theorem runSeedLoop_genSeeds (cfg : DiffConfig) (env : DiffEnv) :
    ∀ r k p runs, ∃ m, m ≤ r ∧
      genSeeds (runSeedLoop cfg env r k p runs).2 =
        (List.range m).map (fun i => cfg.seedStart + k + i) := by
  intro r
  induction r with
  | zero => intro k p runs; exact ⟨0, by simp [runSeedLoop, genSeeds]⟩
  | succ n ih =>
    intro k p runs
    cases h : seedStep cfg env (cfg.seedStart + k) with
    | fail rep evs =>
      refine ⟨1, by omega, ?_⟩
      have he := seedStep_fail_evs cfg env _ rep evs h
      simp only [runSeedLoop, h, he]
      simp [List.range_succ]
    | pass rcd evs =>
      obtain ⟨m, hm, hseeds⟩ := ih (k + 1) (p + 1) (runs ++ [rcd])
      refine ⟨m + 1, by omega, ?_⟩
      simp only [runSeedLoop, h]
      rw [genSeeds_append, seedStep_pass_evs cfg env _ rcd evs h, hseeds,
        List.range_succ_eq_map]
      simp only [List.map_cons, List.map_map]
      refine congrArg₂ List.cons (by omega) ?_
      refine List.map_congr_left ?_
      intro i _
      simp only [Function.comp_apply]
      omega

theorem compileProjLoop_genSeeds :
    ∀ (l : List (Int × String × String)) (i : Nat),
      genSeeds (compileProjLoop l i).2 = [] := by
  intro l
  induction l with
  | nil => intro i; simp [compileProjLoop, genSeeds]
  | cons t rest ih =>
    intro i
    by_cases h : t.1 != 0
    · obtain ⟨rc, o, e⟩ := t
      simp only [compileProjLoop]
      rw [if_pos h]
      simp [genSeeds]
    · obtain ⟨rc, o, e⟩ := t
      simp only [compileProjLoop]
      rw [if_neg h]
      simpa [genSeeds] using ih (i + 1)

theorem sourceCompilePhase_genSeeds (env : DiffEnv) :
    genSeeds (sourceCompilePhase env).2 = [] := by
  have hp := compileProjLoop_genSeeds env.projCompiles 0
  unfold sourceCompilePhase
  by_cases h1 : env.harnessCompile.1 != 0
  · simp [h1, genSeeds]
  · cases hcp : (compileProjLoop env.projCompiles 0).1 with
    | some v =>
      simp only [h1]
      simpa [hcp, genSeeds] using hp
    | none =>
      by_cases h2 : env.link.1 != 0
      · simp only [h1]
        simpa [hcp, h2, genSeeds] using hp
      · simp only [h1]
        simpa [hcp, h2, genSeeds] using hp

theorem genSeeds_buildEvents :
    genSeeds [DiffEvent.lakeBuild, DiffEvent.lakeHarnessBuild] = [] := rfl

/-- C1: the k-th generator invocation uses seed `seedStart + k`; the seed
sequence of any invocation of the runner is an initial segment of
`seedStart, seedStart+1, ...` of length at most `requiredRuns`.  Since
`runDifferentialTest` is a function, the sequence is identical across
invocations on the same configuration. -/
theorem diff_seeds_sequential (cfg : DiffConfig) (env : DiffEnv) :
    ∃ m, m ≤ cfg.requiredRuns ∧
      genSeeds (runDifferentialTest cfg env).2 =
        (List.range m).map (fun i => cfg.seedStart + i) := by
  unfold runDifferentialTest
  by_cases hf : env.leanHarnessFound
  · have hph : genSeeds (if cfg.harnessEndsWithC then sourceCompilePhase env
        else (none, [])).2 = [] := by
      by_cases hc : cfg.harnessEndsWithC
      · simpa [hc] using sourceCompilePhase_genSeeds env
      · simp [hc, genSeeds]
    cases hsp : (if cfg.harnessEndsWithC then sourceCompilePhase env
        else (none, [])) with
    | mk fst snd =>
      rw [hsp] at hph
      simp only at hph
      cases fst with
      | some rep =>
        refine ⟨0, Nat.zero_le _, ?_⟩
        simp only [hf, Bool.not_true, Bool.false_eq_true, if_false, hsp]
        simpa using hph
      | none =>
        by_cases hb : strStartsWith env.lakeBuildOut "Build Success"
        · by_cases hh : strStartsWith env.lakeHarnessBuildOut "Build Success"
          · obtain ⟨m, hm, hs⟩ := runSeedLoop_genSeeds cfg env cfg.requiredRuns 0 0 []
            refine ⟨m, hm, ?_⟩
            simp only [hf, Bool.not_true, Bool.false_eq_true, if_false, hsp, hb, hh]
            rw [genSeeds_append, genSeeds_append, hph, genSeeds_buildEvents, hs]
            simp
          · refine ⟨0, Nat.zero_le _, ?_⟩
            simp only [hf, Bool.not_true, Bool.false_eq_true, if_false, hsp, hb, hh,
              Bool.not_false, if_true]
            rw [genSeeds_append, hph]
            rfl
        · refine ⟨0, Nat.zero_le _, ?_⟩
          simp only [hf, Bool.not_true, Bool.false_eq_true, if_false, hsp, hb,
            Bool.not_false, if_true]
          rw [genSeeds_append, hph]
          rfl
  · refine ⟨0, Nat.zero_le _, ?_⟩
    simp only [Bool.not_eq_true] at hf
    simp [hf, genSeeds]

theorem seedStep_fail_status (cfg : DiffConfig) (env : DiffEnv) (seed : Nat)
    (rep : Report) (evs : List DiffEvent)
    (h : seedStep cfg env seed = .fail rep evs) : rep.status ≠ "success" := by
  cases hg : env.gen seed with
  | timeout => simp [seedStep, hg] at h; simp [← h.1]
  | exn m => simp [seedStep, hg] at h; simp [← h.1]
  | done rc gOut gErr =>
    by_cases hrc : rc != 0
    · simp [seedStep, hg, hrc] at h; simp [← h.1]
    · by_cases hnc : (genLines gOut).length < cfg.minCasesPerRun
      · simp [seedStep, hg, hrc, hnc] at h; simp [← h.1]
      · cases hcr : env.cRun seed with
        | timeout => simp [seedStep, hg, hrc, hnc, hcr] at h; simp [← h.1]
        | exn m => simp [seedStep, hg, hrc, hnc, hcr] at h; simp [← h.1]
        | done crc cOut cErr =>
          by_cases hcrc : crc != 0
          · simp [seedStep, hg, hrc, hnc, hcr, hcrc] at h; simp [← h.1]
          · cases hlr : env.leanRun seed with
            | timeout => simp [seedStep, hg, hrc, hnc, hcr, hcrc, hlr] at h; simp [← h.1]
            | exn m => simp [seedStep, hg, hrc, hnc, hcr, hcrc, hlr] at h; simp [← h.1]
            | done lrc lOut lErr =>
              by_cases hlrc : lrc != 0
              · simp [seedStep, hg, hrc, hnc, hcr, hcrc, hlr, hlrc] at h
                simp [← h.1]
              · by_cases hno : (cOutputLines cOut).length == 0
                · simp [seedStep, hg, hrc, hnc, hcr, hcrc, hlr, hlrc, hno] at h
                  simp [← h.1]
                · by_cases hm : cOut == lOut
                  · simp [seedStep, hg, hrc, hnc, hcr, hcrc, hlr, hlrc, hno, hm] at h
                  · simp [seedStep, hg, hrc, hnc, hcr, hcrc, hlr, hlrc, hno, hm] at h
                    simp [← h.1]

theorem runSeedLoop_success_fields (cfg : DiffConfig) (env : DiffEnv) :
    ∀ r k p runs, (runSeedLoop cfg env r k p runs).1.status = "success" →
      (runSeedLoop cfg env r k p runs).1.passedRuns = some (p + r) ∧
      (runSeedLoop cfg env r k p runs).1.requiredRuns = some cfg.requiredRuns ∧
      (runSeedLoop cfg env r k p runs).1.minCasesPerRun = some cfg.minCasesPerRun := by
  intro r
  induction r with
  | zero => intro k p runs _; simp [runSeedLoop]
  | succ n ih =>
    intro k p runs h
    cases hs : seedStep cfg env (cfg.seedStart + k) with
    | fail rep evs =>
      exfalso
      have hne := seedStep_fail_status cfg env _ rep evs hs
      simp only [runSeedLoop, hs] at h
      exact hne h
    | pass rcd evs =>
      simp only [runSeedLoop, hs] at h ⊢
      have h3 := ih (k + 1) (p + 1) (runs ++ [rcd]) h
      refine ⟨?_, h3.2.1, h3.2.2⟩
      rw [h3.1]
      congr 1
      omega

theorem compileProjLoop_some_of_fail :
    ∀ (l : List (Int × String × String)) (i : Nat),
      (l.all (fun t => t.1 == 0)) = true → (compileProjLoop l i).1 = none := by
  intro l
  induction l with
  | nil => intro i _; simp [compileProjLoop]
  | cons t rest ih =>
    intro i h
    simp only [List.all_cons, Bool.and_eq_true, beq_iff_eq] at h
    obtain ⟨rc, o, e⟩ := t
    simp only [compileProjLoop]
    have hz : ¬((rc, o, e).1 != 0) = true := by simpa using h.1
    rw [if_neg hz]
    exact ih (i + 1) (by simpa using h.2)

theorem compileProjLoop_noInvoke :
    ∀ (l : List (Int × String × String)) (i : Nat),
      (compileProjLoop l i).2.filter isInvokeEvent = [] := by
  intro l
  induction l with
  | nil => intro i; simp [compileProjLoop]
  | cons t rest ih =>
    intro i
    obtain ⟨rc, o, e⟩ := t
    simp only [compileProjLoop]
    by_cases h : ((rc, o, e).1 != 0) = true
    · rw [if_pos h]; simp [isInvokeEvent]
    · rw [if_neg h]
      simp [List.filter_cons, isInvokeEvent, ih (i + 1)]

theorem sourceCompilePhase_noInvoke (env : DiffEnv) :
    (sourceCompilePhase env).2.filter isInvokeEvent = [] := by
  have hp := compileProjLoop_noInvoke env.projCompiles 0
  unfold sourceCompilePhase
  by_cases h1 : env.harnessCompile.1 != 0
  · simp [h1, isInvokeEvent]
  · cases hcp : (compileProjLoop env.projCompiles 0).1 with
    | some v =>
      simp only [h1]
      simp [hcp, List.filter_cons, isInvokeEvent, hp]
    | none =>
      by_cases h2 : env.link.1 != 0
      · simp only [h1]
        simp [hcp, h2, List.filter_cons, List.filter_append, isInvokeEvent, hp]
      · simp only [h1]
        simp [hcp, h2, List.filter_cons, List.filter_append, isInvokeEvent, hp]

theorem sourceCompilePhase_none (env : DiffEnv)
    (h1 : env.harnessCompile.1 = 0)
    (h2 : (env.projCompiles.all (fun t => t.1 == 0)) = true)
    (h3 : env.link.1 = 0) : (sourceCompilePhase env).1 = none := by
  unfold sourceCompilePhase
  have hcp := compileProjLoop_some_of_fail env.projCompiles 0 h2
  simp [h1, hcp, h3]

theorem sourceCompilePhase_some_status (env : DiffEnv) (rep : Report)
    (evs : List DiffEvent)
    (h : sourceCompilePhase env = (some rep, evs)) : rep.status = "error" := by
  unfold sourceCompilePhase at h
  by_cases h1 : env.harnessCompile.1 != 0
  · rw [if_pos h1] at h
    injection h with ha hb
    injection ha with ha
    rw [← ha]
  · rw [if_neg h1] at h
    cases hcp : (compileProjLoop env.projCompiles 0).1 with
    | some v =>
      rw [hcp] at h
      injection h with ha hb
      injection ha with ha
      rw [← ha]
    | none =>
      rw [hcp] at h
      by_cases h2 : env.link.1 != 0
      · rw [if_pos h2] at h
        injection h with ha hb
        injection ha with ha
        rw [← ha]
      · rw [if_neg h2] at h
        injection h with ha hb
        exact absurd ha (by simp)

/-- Whenever the pre-loop phases all pass, the runner's result is the
per-seed loop's result, with a prefix of compile/build events that
invoke neither the generator nor a harness. -/
theorem runDiff_eq_loop (cfg : DiffConfig) (env : DiffEnv)
    (hpf : preflightPasses cfg env = true) :
    ∃ pre, runDifferentialTest cfg env =
        ((runSeedLoop cfg env cfg.requiredRuns 0 0 []).1,
          pre ++ (runSeedLoop cfg env cfg.requiredRuns 0 0 []).2) ∧
      pre.filter isInvokeEvent = [] := by
  simp only [preflightPasses, Bool.and_eq_true, Bool.or_eq_true, Bool.not_eq_true'] at hpf
  obtain ⟨⟨⟨hf, hcomp⟩, hb⟩, hh⟩ := hpf
  unfold runDifferentialTest
  simp only [hf, Bool.not_true, Bool.false_eq_true, if_false]
  by_cases hc : cfg.harnessEndsWithC
  · have hnone : (sourceCompilePhase env).1 = none := by
      rcases hcomp with hcomp | hcomp
      · rw [hc] at hcomp; cases hcomp
      · simp only [Bool.and_eq_true, beq_iff_eq] at hcomp
        exact sourceCompilePhase_none env hcomp.1.1 hcomp.1.2 hcomp.2
    cases hsp : sourceCompilePhase env with
    | mk fst snd =>
      rw [hsp] at hnone
      simp only at hnone
      subst hnone
      refine ⟨snd ++ [DiffEvent.lakeBuild, DiffEvent.lakeHarnessBuild], ?_, ?_⟩
      · simp only [hc, if_true, hsp, hb, hh, Bool.not_true, Bool.false_eq_true, if_false]
      · have := sourceCompilePhase_noInvoke env
        rw [hsp] at this
        simp only at this
        simp [List.filter_append, this, isInvokeEvent]
  · refine ⟨[DiffEvent.lakeBuild, DiffEvent.lakeHarnessBuild], ?_, ?_⟩
    · simp [hc, hb, hh]
    · simp [isInvokeEvent]

/-- Either the runner fails before the per-seed loop with an error report,
or its report is the loop's report. -/
theorem runDiff_report_cases (cfg : DiffConfig) (env : DiffEnv) :
    (runDifferentialTest cfg env).1.status = "error" ∨
    (runDifferentialTest cfg env).1 = (runSeedLoop cfg env cfg.requiredRuns 0 0 []).1 := by
  unfold runDifferentialTest
  by_cases hf : env.leanHarnessFound
  · cases hsp : (if cfg.harnessEndsWithC then sourceCompilePhase env
        else (none, [])) with
    | mk fst snd =>
      cases fst with
      | some rep =>
        left
        have hst : rep.status = "error" := by
          by_cases hc : cfg.harnessEndsWithC
          · rw [if_pos hc] at hsp
            exact sourceCompilePhase_some_status env rep snd hsp
          · rw [if_neg hc] at hsp
            injection hsp with ha hb
            exact absurd ha (by simp)
        simp only [hf, Bool.not_true, Bool.false_eq_true, if_false, hsp]
        exact hst
      | none =>
        by_cases hb : strStartsWith env.lakeBuildOut "Build Success"
        · by_cases hh : strStartsWith env.lakeHarnessBuildOut "Build Success"
          · right
            simp [hf, hsp, hb, hh]
          · left
            simp [hf, hsp, hb, hh]
        · left
          simp [hf, hsp, hb]
  · left
    simp only [Bool.not_eq_true] at hf
    simp [hf]

/-- C2: a report with status `success` carries `passed_runs` equal to
`required_runs` and echoes `required_runs` and `min_cases_per_run`; in
particular no success report has `passed_runs < required_runs`. -/
theorem diff_success_report (cfg : DiffConfig) (env : DiffEnv)
    (h : (runDifferentialTest cfg env).1.status = "success") :
    (runDifferentialTest cfg env).1.passedRuns = some cfg.requiredRuns ∧
    (runDifferentialTest cfg env).1.requiredRuns = some cfg.requiredRuns ∧
    (runDifferentialTest cfg env).1.minCasesPerRun = some cfg.minCasesPerRun := by
  rcases runDiff_report_cases cfg env with hc | hc
  · rw [h] at hc
    exact absurd hc (by decide)
  · rw [hc] at h ⊢
    have h2 := runSeedLoop_success_fields cfg env cfg.requiredRuns 0 0 [] h
    simpa using h2

/-- Concrete configuration used by the witnesses: two required runs, one
required case per run, seeds starting at `DIFF_SEED_START = 1`, no C
compile phase. -/
def cfgW : DiffConfig :=
  { requiredRuns := 2, minCasesPerRun := 1, seedStart := DIFF_SEED_START,
    harnessEndsWithC := false }

/-- Environment in which every phase and every seed passes. -/
def envPassW : DiffEnv :=
  { leanHarnessFound := true,
    harnessCompile := (0, "", ""),
    projCompiles := [],
    link := (0, "", ""),
    lakeBuildOut := "Build Success (0.10s)",
    lakeHarnessBuildOut := "Build Success",
    gen := fun _ => .done 0 "NOOP\n" "",
    cRun := fun _ => .done 0 "OK\n" "",
    leanRun := fun _ => .done 0 "OK\n" "" }

theorem diff_success_report_witness :
    (runDifferentialTest cfgW envPassW).1.status = "success" ∧
    (runDifferentialTest cfgW envPassW).1.passedRuns = some cfgW.requiredRuns :=
  ⟨by decide, (diff_success_report cfgW envPassW (by decide)).1⟩

/-- Reduction of one loop iteration when the generator and both harnesses
complete with exit code 0 and enough generated cases: the iteration is
decided by the `no_output` check on the C output followed by the
byte-comparison. -/
theorem seedStep_clean (cfg : DiffConfig) (env : DiffEnv) (seed : Nat)
    (gOut gErr cOut cErr lOut lErr : String)
    (hg : env.gen seed = .done 0 gOut gErr)
    (hn : cfg.minCasesPerRun ≤ (genLines gOut).length)
    (hc : env.cRun seed = .done 0 cOut cErr)
    (hl : env.leanRun seed = .done 0 lOut lErr) :
    seedStep cfg env seed =
      if (cOutputLines cOut).length == 0 then
        .fail { status := "no_output", whereTag := some "output_coverage",
                seed := some seed, cases := some (genLines gOut).length,
                message := some "C harness produced no output at all. Tests must produce output to verify behavior." }
          [.genInvoke seed, .cRunInvoke seed, .leanRunInvoke seed]
      else if cOut == lOut then
        .pass { seed := seed, cases := (genLines gOut).length,
                outputs := (cOutputLines cOut).length, status := "pass" }
          [.genInvoke seed, .cRunInvoke seed, .leanRunInvoke seed]
      else
        .fail { status := "diff", whereTag := some "compare", seed := some seed,
                cases := some (genLines gOut).length,
                message := some "Outputs differ; fix Lean semantics or harness to match C.",
                cOut := some (truncS cOut 2500), leanOut := some (truncS lOut 2500) }
          [.genInvoke seed, .cRunInvoke seed, .leanRunInvoke seed] := by
  have hlt : ¬((genLines gOut).length < cfg.minCasesPerRun) := Nat.not_lt.mpr hn
  simp only [seedStep, hg, hc, hl, hlt, bne_self_eq_false, Bool.false_eq_true, if_false,
    if_true]

/-- Environment refuting C3 as stated: at seed 1 both harnesses exit 0,
the outputs `""` and `"X\n"` differ as strings, but the C output strips to
zero non-empty lines. -/
def envC3cx : DiffEnv :=
  { envPassW with cRun := fun _ => .done 0 "" "",
                  leanRun := fun _ => .done 0 "X\n" "" }

/-- C3 counterexample: the reference output and specification output are
unequal as strings at seed 1, yet the runner returns `no_output`, not
`diff` — the claim fails when the C output has no non-empty line. -/
theorem diff_mismatch_c3_counterexample :
    envC3cx.cRun cfgW.seedStart = ProcOutcome.done 0 "" "" ∧
    envC3cx.leanRun cfgW.seedStart = ProcOutcome.done 0 "X\n" "" ∧
    ("" : String) ≠ "X\n" ∧
    (runDifferentialTest cfgW envC3cx).1.status = "no_output" ∧
    ¬((runDifferentialTest cfgW envC3cx).1.status = "diff") := by
  refine ⟨rfl, rfl, by decide, by decide, by decide⟩

/-- C3, amended: at any reached seed at which both harnesses complete with
exit code 0, the generator produced enough cases, and the C output has at
least one non-empty line: unequal outputs make the loop return immediately
with status `diff`, the seed and both truncated outputs, performing no
further invocation of any kind; equal outputs append a `pass` record,
increment the pass counter and continue with the next seed. -/
theorem diff_mismatch_halts (cfg : DiffConfig) (env : DiffEnv)
    (r k passed : Nat) (runs : List RunRec)
    (gOut gErr cOut cErr lOut lErr : String)
    (hg : env.gen (cfg.seedStart + k) = .done 0 gOut gErr)
    (hn : cfg.minCasesPerRun ≤ (genLines gOut).length)
    (hc : env.cRun (cfg.seedStart + k) = .done 0 cOut cErr)
    (hl : env.leanRun (cfg.seedStart + k) = .done 0 lOut lErr)
    (hout : (cOutputLines cOut).length ≠ 0) :
    (cOut ≠ lOut →
      runSeedLoop cfg env (r + 1) k passed runs =
        ({ status := "diff", whereTag := some "compare",
           seed := some (cfg.seedStart + k), cases := some (genLines gOut).length,
           message := some "Outputs differ; fix Lean semantics or harness to match C.",
           cOut := some (truncS cOut 2500), leanOut := some (truncS lOut 2500) },
         [.genInvoke (cfg.seedStart + k), .cRunInvoke (cfg.seedStart + k),
          .leanRunInvoke (cfg.seedStart + k)])) ∧
    (cOut = lOut →
      runSeedLoop cfg env (r + 1) k passed runs =
        ((runSeedLoop cfg env r (k + 1) (passed + 1)
            (runs ++ [{ seed := cfg.seedStart + k, cases := (genLines gOut).length,
                        outputs := (cOutputLines cOut).length, status := "pass" }])).1,
         [.genInvoke (cfg.seedStart + k), .cRunInvoke (cfg.seedStart + k),
          .leanRunInvoke (cfg.seedStart + k)] ++
          (runSeedLoop cfg env r (k + 1) (passed + 1)
            (runs ++ [{ seed := cfg.seedStart + k, cases := (genLines gOut).length,
                        outputs := (cOutputLines cOut).length, status := "pass" }])).2)) := by
  have hstep := seedStep_clean cfg env (cfg.seedStart + k) gOut gErr cOut cErr lOut lErr
    hg hn hc hl
  have hno : ((cOutputLines cOut).length == 0) = false := by simpa using hout
  rw [hno] at hstep
  simp only [Bool.false_eq_true, if_false] at hstep
  constructor
  · intro hne
    have hm : (cOut == lOut) = false := by simpa using hne
    rw [hm] at hstep
    simp only [Bool.false_eq_true, if_false] at hstep
    simp [runSeedLoop, hstep]
  · intro heq
    have hm : (cOut == lOut) = true := by simpa using heq
    rw [hm] at hstep
    simp only [if_true] at hstep
    simp [runSeedLoop, hstep]

theorem diff_mismatch_halts_witness :
    envPassW.gen (cfgW.seedStart + 0) = ProcOutcome.done 0 "NOOP\n" "" ∧
    cfgW.minCasesPerRun ≤ (genLines "NOOP\n").length ∧
    (cOutputLines "OK\n").length ≠ 0 ∧
    runSeedLoop cfgW envPassW 2 0 0 [] =
      ((runSeedLoop cfgW envPassW 1 1 1
          [{ seed := cfgW.seedStart + 0, cases := (genLines "NOOP\n").length,
             outputs := (cOutputLines "OK\n").length, status := "pass" }]).1,
       [.genInvoke (cfgW.seedStart + 0), .cRunInvoke (cfgW.seedStart + 0),
        .leanRunInvoke (cfgW.seedStart + 0)] ++
        (runSeedLoop cfgW envPassW 1 1 1
          [{ seed := cfgW.seedStart + 0, cases := (genLines "NOOP\n").length,
             outputs := (cOutputLines "OK\n").length, status := "pass" }]).2) :=
  ⟨rfl, by decide, by decide,
    (diff_mismatch_halts cfgW envPassW 1 0 0 [] "NOOP\n" "" "OK\n" "" "OK\n" ""
      rfl (by decide) rfl rfl (by decide)).2 rfl⟩

/-- Environment refuting C7 as stated: the Lean side produces zero output
lines while the C side does not; the runner reports `diff`, not
`no_output`. -/
def envC7cx : DiffEnv :=
  { envPassW with leanRun := fun _ => .done 0 "" "" }

/-- C7 counterexample: both harnesses exit 0; the specification side emits
zero output lines; the runner returns `diff`, not the claimed
`no_output` — the zero-output check inspects only the reference (C)
output. -/
theorem diff_no_output_c7_counterexample :
    envC7cx.cRun cfgW.seedStart = ProcOutcome.done 0 "OK\n" "" ∧
    envC7cx.leanRun cfgW.seedStart = ProcOutcome.done 0 "" "" ∧
    cOutputLines "" = [] ∧
    (runDifferentialTest cfgW envC7cx).1.status = "diff" ∧
    ¬((runDifferentialTest cfgW envC7cx).1.status = "no_output") := by
  refine ⟨rfl, rfl, by decide, by decide, by decide⟩

/-- C7, amended: at any reached seed at which both harnesses complete with
exit code 0 and the generator produced enough cases, if the reference (C)
side's output strips to zero non-empty lines, the loop returns the
distinct failure status `no_output` for that seed instead of recording a
pass — regardless of the Lean output; a Lean-side-only empty output
surfaces as `diff` instead (see the counterexample). -/
theorem diff_no_output_c_side (cfg : DiffConfig) (env : DiffEnv)
    (r k passed : Nat) (runs : List RunRec)
    (gOut gErr cOut cErr lOut lErr : String)
    (hg : env.gen (cfg.seedStart + k) = .done 0 gOut gErr)
    (hn : cfg.minCasesPerRun ≤ (genLines gOut).length)
    (hc : env.cRun (cfg.seedStart + k) = .done 0 cOut cErr)
    (hl : env.leanRun (cfg.seedStart + k) = .done 0 lOut lErr)
    (hout : cOutputLines cOut = []) :
    runSeedLoop cfg env (r + 1) k passed runs =
      ({ status := "no_output", whereTag := some "output_coverage",
         seed := some (cfg.seedStart + k), cases := some (genLines gOut).length,
         message := some "C harness produced no output at all. Tests must produce output to verify behavior." },
       [.genInvoke (cfg.seedStart + k), .cRunInvoke (cfg.seedStart + k),
        .leanRunInvoke (cfg.seedStart + k)]) := by
  have hstep := seedStep_clean cfg env (cfg.seedStart + k) gOut gErr cOut cErr lOut lErr
    hg hn hc hl
  have hno : ((cOutputLines cOut).length == 0) = true := by simp [hout]
  rw [hno] at hstep
  simp only [if_true] at hstep
  simp [runSeedLoop, hstep]

/-- Environment for the C7 witness: both sides emit empty output and exit
0; the runner reports `no_output` rather than a silent pass. -/
def envBothEmptyW : DiffEnv :=
  { envPassW with cRun := fun _ => .done 0 "" "",
                  leanRun := fun _ => .done 0 "" "" }

theorem diff_no_output_c_side_witness :
    cOutputLines "" = [] ∧
    runSeedLoop cfgW envBothEmptyW 2 0 0 [] =
      ({ status := "no_output", whereTag := some "output_coverage",
         seed := some (cfgW.seedStart + 0), cases := some (genLines "NOOP\n").length,
         message := some "C harness produced no output at all. Tests must produce output to verify behavior." },
       [.genInvoke (cfgW.seedStart + 0), .cRunInvoke (cfgW.seedStart + 0),
        .leanRunInvoke (cfgW.seedStart + 0)]) :=
  ⟨by decide,
    diff_no_output_c_side cfgW envBothEmptyW 1 0 0 [] "NOOP\n" "" "" "" "" ""
      rfl (by decide) rfl rfl (by decide)⟩

/-- Configuration with the C compile phase enabled, for the C8
counterexample and witness. -/
def cfgW2 : DiffConfig :=
  { requiredRuns := 2, minCasesPerRun := 1, seedStart := DIFF_SEED_START,
    harnessEndsWithC := true }

/-- Environment refuting C8 as stated: the generator exits with code 1,
but the C harness compilation and the Lean builds have already been
attempted (and succeeded) before the generator is ever invoked. -/
def envC8cx : DiffEnv :=
  { envPassW with gen := fun _ => .done 1 "" "boom",
                  projCompiles := [(0, "", "")] }

/-- C8 counterexample: the generator exits 1 and the runner does return
`error`/`generator`, but the event trace shows compilation was attempted
(C harness compile, project compile, link, and both Lean builds all
precede the generator invocation), contradicting the claim that no
compilation is attempted. -/
theorem diff_generator_exit_c8_counterexample :
    envC8cx.gen cfgW2.seedStart = ProcOutcome.done 1 "" "boom" ∧
    (runDifferentialTest cfgW2 envC8cx).1.status = "error" ∧
    (runDifferentialTest cfgW2 envC8cx).1.whereTag = some "generator" ∧
    DiffEvent.compileHarness ∈ (runDifferentialTest cfgW2 envC8cx).2 ∧
    DiffEvent.lakeBuild ∈ (runDifferentialTest cfgW2 envC8cx).2 := by
  refine ⟨rfl, by decide, by decide, by decide, by decide⟩

/-- C8, amended: when all pre-loop compile/build phases pass and the
generator exits nonzero at the first seed, the runner returns a report
with status `error` and where `generator` carrying that seed, and invokes
neither harness and no later seed; the compilation and build steps take
place before the seed loop, so they have already been attempted by the
time the generator fails (no further compilation follows). -/
theorem diff_generator_exit_halts (cfg : DiffConfig) (env : DiffEnv)
    (rc : Int) (gOut gErr : String)
    (hpf : preflightPasses cfg env = true)
    (hr : 0 < cfg.requiredRuns)
    (hg : env.gen cfg.seedStart = .done rc gOut gErr)
    (hrc : rc ≠ 0) :
    (runDifferentialTest cfg env).1.status = "error" ∧
    (runDifferentialTest cfg env).1.whereTag = some "generator" ∧
    (runDifferentialTest cfg env).1.seed = some cfg.seedStart ∧
    (runDifferentialTest cfg env).2.filter isInvokeEvent =
      [DiffEvent.genInvoke cfg.seedStart] := by
  obtain ⟨pre, heq, hpre⟩ := runDiff_eq_loop cfg env hpf
  obtain ⟨n, hn⟩ : ∃ n, cfg.requiredRuns = n + 1 :=
    ⟨cfg.requiredRuns - 1, by omega⟩
  have hstep : seedStep cfg env cfg.seedStart =
      .fail { status := "error", whereTag := some "generator",
              seed := some cfg.seedStart,
              message := some "Generator must accept --seed and --n and exit 0." }
        [.genInvoke cfg.seedStart] := by
    simp [seedStep, hg, hrc]
  have hloop : runSeedLoop cfg env cfg.requiredRuns 0 0 [] =
      ({ status := "error", whereTag := some "generator",
         seed := some cfg.seedStart,
         message := some "Generator must accept --seed and --n and exit 0." },
       [.genInvoke cfg.seedStart]) := by
    rw [hn]
    simp [runSeedLoop, hstep]
  rw [heq]
  rw [hloop]
  refine ⟨rfl, rfl, rfl, ?_⟩
  simp [List.filter_append, hpre, isInvokeEvent]

theorem diff_generator_exit_halts_witness :
    preflightPasses cfgW2 envC8cx = true ∧
    0 < cfgW2.requiredRuns ∧
    (runDifferentialTest cfgW2 envC8cx).1.status = "error" ∧
    (runDifferentialTest cfgW2 envC8cx).2.filter isInvokeEvent =
      [DiffEvent.genInvoke cfgW2.seedStart] :=
  ⟨by decide, by decide,
    (diff_generator_exit_halts cfgW2 envC8cx 1 "" "boom" (by decide) (by decide)
      rfl (by decide)).1,
    (diff_generator_exit_halts cfgW2 envC8cx 1 "" "boom" (by decide) (by decide)
      rfl (by decide)).2.2.2⟩

theorem listIsPrefix_append_self (a b : List Char) :
    listIsPrefix a (a ++ b) = true := by
  induction a with
  | nil => rfl
  | cons c cs ih => simp [listIsPrefix, ih]

theorem string_data_append (p s : String) : (p ++ s).data = p.data ++ s.data := by
  cases p
  cases s
  rfl

theorem strStartsWith_append (p s : String) : strStartsWith (p ++ s) p = true := by
  show listIsPrefix p.data (p ++ s).data = true
  rw [string_data_append]
  exact listIsPrefix_append_self p.data s.data

/-- C4: in the EQUIVALENCE or COGENERATION stage, `submit_stage` is
accepted exactly when the full build succeeds, the harness target builds,
`last_status` is `success` and `passed_runs >= required_runs`; in every
other case the tool returns a failed result whose output is a reason
string prefixed by the denial marker.  The side hypothesis that a
`success` status entails a stored report holds for every state produced by
`updateTestStateFromReport` (which always stores the report). -/
theorem submit_equivalence_iff (ctx : SubmitCtx) (summary : String)
    (hstage : pyUpper ctx.currentStage = "EQUIVALENCE" ∨
      pyUpper ctx.currentStage = "COGENERATION")
    (hrep : ctx.equiv.lastStatus = "success" → ctx.equiv.lastReportPresent = true) :
    ((submitStageTool ctx summary).2 = true ↔
      (strStartsWith ctx.lakeBuildOut "Build Success" = true ∧
       strStartsWith ctx.lakeHarnessBuildOut "Build Success" = true ∧
       ctx.equiv.lastStatus = "success" ∧
       ctx.equiv.requiredRuns ≤ ctx.equiv.passedRuns)) ∧
    ((submitStageTool ctx summary).2 = false →
      strStartsWith (submitStageTool ctx summary).1 "Denied submit_stage: " = true) := by
  have hc : canSubmitCurrentStage ctx =
      (if !(strStartsWith ctx.lakeBuildOut "Build Success") then
        (false, "lake build is not successful; fix build errors first.")
      else if !(strStartsWith ctx.lakeHarnessBuildOut "Build Success") then
        (false, "harness build failed; fix Spec.tests.Harness compilation errors.")
      else if !ctx.equiv.lastReportPresent then
        (false, "no differential test report yet; you must call run_differential_test.")
      else if !(ctx.equiv.lastStatus == "success") then
        (false, "differential testing has not succeeded; fix timeouts/diffs and rerun.")
      else if ctx.equiv.passedRuns < ctx.equiv.requiredRuns then
        (false, "insufficient successful runs; need " ++ toString ctx.diffRequiredRuns ++
          " passing seeds.")
      else (true, "")) := by
    rcases hstage with h | h <;> simp [canSubmitCurrentStage, h]
  simp only [submitStageTool, hc]
  split_ifs with h1 h2 h3 h4 h5 <;>
    simp_all [strStartsWith_append, Nat.not_lt] <;> decide

/-- A state produced by `update_test_state_from_report` always stores the
report, so the side hypothesis of `submit_equivalence_iff` holds for every
state the runner callback can produce. -/
theorem updateTestState_report_present (defR defM : Nat) (st : EquivState)
    (rep : Report) :
    (updateTestStateFromReport defR defM st rep).lastReportPresent = true := rfl

/-- Initial equivalence state, before any differential test report. -/
def equivStInit : EquivState :=
  { lastReportPresent := false, lastStatus := "unknown", passedRuns := 0,
    requiredRuns := 5, minCasesPerRun := 5 }

/-- A success report at the 5/5 threshold. -/
def successRepW : Report :=
  { status := "success", passedRuns := some 5, requiredRuns := some 5,
    minCasesPerRun := some 5 }

/-- A diff report (as after four passes and a mismatch at the fifth seed;
the runner's diff report carries no `passed_runs`). -/
def diffRepW : Report :=
  { status := "diff", whereTag := some "compare", seed := some 5 }

/-- Submit-time state after a fully passing differential test. -/
def submitCtxPassW : SubmitCtx :=
  { currentStage := "Equivalence", lakeBuildOut := "Build Success (1.00s)",
    lakeHarnessBuildOut := "Build Success", safetyCaseExists := false,
    equiv := updateTestStateFromReport 5 5 equivStInit successRepW,
    diffRequiredRuns := 5 }

/-- Submit-time state after a differential test that found a mismatch. -/
def submitCtxDiffW : SubmitCtx :=
  { submitCtxPassW with
    equiv := updateTestStateFromReport 5 5 equivStInit diffRepW }

theorem submit_equivalence_iff_witness :
    (submitStageTool submitCtxPassW "done").2 = true ∧
    (submitStageTool submitCtxDiffW "done").2 = false ∧
    strStartsWith (submitStageTool submitCtxDiffW "done").1
      "Denied submit_stage: " = true := by
  refine ⟨?_, ?_, ?_⟩
  · exact ((submit_equivalence_iff submitCtxPassW "done" (Or.inl (by decide))
      (by decide)).1).mpr (by decide)
  · by_contra hne
    have hacc : (submitStageTool submitCtxDiffW "done").2 = true := by
      cases hflag : (submitStageTool submitCtxDiffW "done").2
      · exact absurd hflag hne
      · rfl
    have h4 := ((submit_equivalence_iff submitCtxDiffW "done" (Or.inl (by decide))
      (by decide)).1).mp hacc
    exact absurd h4.2.2.1 (by decide)
  · exact (submit_equivalence_iff submitCtxDiffW "done" (Or.inl (by decide))
      (by decide)).2 (by decide)

theorem writeLeanChecked_denied (ctx : SandboxCtx) (fs : FS) (rel content : String)
    (h : ctx.lockedLeanPaths.contains rel = true ∨
      ctx.allowedLeanWrites.contains rel = false) :
    (writeLeanChecked ctx fs rel content).1.success = false ∧
    (writeLeanChecked ctx fs rel content).2 = fs := by
  unfold writeLeanChecked
  by_cases hl : ctx.lockedLeanPaths.contains rel = true
  · have hl2 : rel ∈ ctx.lockedLeanPaths := by simpa using hl
    simp [hl2]
  · have ha : ctx.allowedLeanWrites.contains rel = false := by
      rcases h with h | h
      · exact absurd h hl
      · exact h
    have hl2 : rel ∉ ctx.lockedLeanPaths := by simpa using hl
    have ha2 : rel ∉ ctx.allowedLeanWrites := by simpa using ha
    simp [hl2, ha2]

theorem writeLeanRel_denied (ctx : SandboxCtx) (fs : FS) (rel content : String)
    (h : ctx.lockedLeanPaths.contains rel = true ∨
      ctx.allowedLeanWrites.contains rel = false) :
    (writeLeanRel ctx fs rel content).1.success = false ∧
    (writeLeanRel ctx fs rel content).2 = fs := by
  unfold writeLeanRel
  by_cases h1 : (rel == ctx.name ++ "/Verif.lean" &&
      !(verifStageOpen (pyUpper ctx.currentStage))) = true
  · simp [h1]
  · by_cases h2 : (rel == ctx.name ++ "/Verif.lean" &&
        !(ctx.equivLastStatus == "success")) = true
    · simp [h1, h2]
    · simp only [h1, h2, Bool.false_eq_true, if_false]
      exact writeLeanChecked_denied ctx fs rel content h

/-- C5: a `write_lean_file` call whose normalized path is locked or not on
the Lean write allow-list, and a `write_text_file` call whose normalized
path is neither on the text allow-list nor covered by prompt mode, are both
denied (success flag false), and the file tree after each call is the file
tree before it. -/
theorem sandbox_denied_writes_unchanged (ctx : SandboxCtx) (fs : FS)
    (rel1 c1 rel2 c2 : String)
    (h1 : ctx.lockedLeanPaths.contains rel1 = true ∨
      ctx.allowedLeanWrites.contains rel1 = false)
    (h2 : textWriteAllowed ctx rel2 = false) :
    (writeLeanRel ctx fs rel1 c1).1.success = false ∧
    (writeLeanRel ctx fs rel1 c1).2 = fs ∧
    (writeTextRel ctx fs rel2 c2).1.success = false ∧
    (writeTextRel ctx fs rel2 c2).2 = fs := by
  obtain ⟨ha, hb⟩ := writeLeanRel_denied ctx fs rel1 c1 h1
  refine ⟨ha, hb, ?_, ?_⟩ <;> simp [writeTextRel, h2]

/-- A failed path normalization (raised `ValueError`, caught by the
dispatcher) also denies and leaves the tree unchanged. -/
theorem writeLeanFile_badpath_unchanged (ctx : SandboxCtx) (fs : FS)
    (p c : String) (h : safeRelpath p = none) :
    (writeLeanFile ctx fs p c).1.success = false ∧
    (writeLeanFile ctx fs p c).2 = fs := by
  unfold writeLeanFile
  rw [h]
  exact ⟨rfl, rfl⟩

/-- Sandbox state used by the sandbox witnesses: a legacy-mode project
named `demo` in the co-generation stage, before any successful
equivalence run, with the scaffold's lock and allow sets. -/
def sandboxCtxW : SandboxCtx :=
  { name := "demo", currentStage := "COGENERATION", equivLastStatus := "unknown",
    lockedLeanPaths := ["Prelude.lean", "demo.lean"],
    allowedLeanWrites := ["demo/Main.lean", "demo/Verif.lean", "tests/Harness.lean"],
    allowedTextWrites := ["spec/tests/gen_inputs.py", "spec/tests/harness.c"],
    promptMode := false, sourceRootStr := "generated/demo",
    specSrcRootStr := "spec/Spec" }

/-- An empty file tree. -/
def fsW : FS := fun _ => none

theorem sandbox_denied_writes_unchanged_witness :
    (sandboxCtxW.lockedLeanPaths.contains "Prelude.lean" = true ∨
      sandboxCtxW.allowedLeanWrites.contains "Prelude.lean" = false) ∧
    textWriteAllowed sandboxCtxW "main.py" = false ∧
    (writeLeanRel sandboxCtxW fsW "Prelude.lean" "namespace Src\nend Src\n").1.success
      = false ∧
    (writeLeanRel sandboxCtxW fsW "Prelude.lean" "namespace Src\nend Src\n").2 = fsW ∧
    (writeTextRel sandboxCtxW fsW "main.py" "x = 1\n").1.success = false ∧
    (writeTextRel sandboxCtxW fsW "main.py" "x = 1\n").2 = fsW :=
  ⟨by decide, by decide,
    (sandbox_denied_writes_unchanged sandboxCtxW fsW "Prelude.lean"
      "namespace Src\nend Src\n" "main.py" "x = 1\n" (by decide) (by decide)).1,
    (sandbox_denied_writes_unchanged sandboxCtxW fsW "Prelude.lean"
      "namespace Src\nend Src\n" "main.py" "x = 1\n" (by decide) (by decide)).2.1,
    (sandbox_denied_writes_unchanged sandboxCtxW fsW "Prelude.lean"
      "namespace Src\nend Src\n" "main.py" "x = 1\n" (by decide) (by decide)).2.2.1,
    (sandbox_denied_writes_unchanged sandboxCtxW fsW "Prelude.lean"
      "namespace Src\nend Src\n" "main.py" "x = 1\n" (by decide) (by decide)).2.2.2⟩

/-- C10: whenever the gate condition fails — the stage (upper-cased) is not
one of SPECIFICATION/HARDENING/VERIFICATION together with a successful
equivalence status — a `write_lean_file` on `<project>/Verif.lean` is
denied with the file tree unchanged; and a `read_lean_file` on that path
outside those stages while the status is not `success` is denied. -/
theorem verif_lockdown (ctx : SandboxCtx) (fs : FS) (content : String)
    (maxRead : Nat) :
    (¬(verifStageOpen (pyUpper ctx.currentStage) = true ∧
        ctx.equivLastStatus = "success") →
      (writeLeanRel ctx fs (ctx.name ++ "/Verif.lean") content).1.success = false ∧
      (writeLeanRel ctx fs (ctx.name ++ "/Verif.lean") content).2 = fs) ∧
    (verifStageOpen (pyUpper ctx.currentStage) = false →
      ctx.equivLastStatus ≠ "success" →
      (readLeanRel ctx fs (ctx.name ++ "/Verif.lean") maxRead).success = false) := by
  constructor
  · intro hgate
    by_cases hopen : verifStageOpen (pyUpper ctx.currentStage) = true
    · have hst : ctx.equivLastStatus ≠ "success" := by
        intro hc
        exact hgate ⟨hopen, hc⟩
      constructor <;> simp [writeLeanRel, hopen, hst]
    · constructor <;> simp [writeLeanRel, hopen]
  · intro hopen hst
    simp [readLeanRel, hopen, hst]

theorem verif_lockdown_witness :
    ¬(verifStageOpen (pyUpper sandboxCtxW.currentStage) = true ∧
        sandboxCtxW.equivLastStatus = "success") ∧
    (writeLeanRel sandboxCtxW fsW ("demo" ++ "/Verif.lean")
        "namespace Src\nend Src\n").1.success = false ∧
    (readLeanRel sandboxCtxW fsW ("demo" ++ "/Verif.lean") 80000).success = false :=
  ⟨by decide,
    ((verif_lockdown sandboxCtxW fsW "namespace Src\nend Src\n" 80000).1
      (by decide)).1,
    (verif_lockdown sandboxCtxW fsW "namespace Src\nend Src\n" 80000).2
      (by decide) (by decide)⟩

/-- Sandbox state in the SPECIFICATION stage after a successful
equivalence run: the `Verif.lean` gate is open. -/
def sandboxCtxSpecW : SandboxCtx :=
  { sandboxCtxW with currentStage := "SPECIFICATION", equivLastStatus := "success" }

/-- Content for `Verif.lean` that introduces a new top-level executable
definition while satisfying the shape validator. -/
def smuggledContentW : String :=
  "import Spec.Prelude\nnamespace Src\ndef smuggled : Nat := 1\nend Src\n"

/-- C6 counterexample: in the SPECIFICATION stage with equivalence passed,
a write of `demo/Verif.lean` whose content introduces a new top-level
executable definition (`def smuggled`) is ACCEPTED by the dispatcher — the
success flag is true and the file is created — even though the claim says
such a write is rejected.  No content check for executable declarations
exists; the rule appears only as a prompt instruction
(src/stages/specification.py line 108). -/
theorem anti_smuggling_c6_counterexample :
    strContains smuggledContentW "def " = true ∧
    sandboxCtxSpecW.allowedLeanWrites.contains "demo/Verif.lean" = true ∧
    (writeLeanRel sandboxCtxSpecW fsW "demo/Verif.lean" smuggledContentW).1.success
      = true ∧
    (writeLeanRel sandboxCtxSpecW fsW "demo/Verif.lean" smuggledContentW).2
      "spec/Spec/demo/Verif.lean" = some smuggledContentW := by
  refine ⟨by decide, by decide, by decide, by decide⟩

/-- C6, amended: the dispatcher's only content check on Lean writes is the
basic shape validator — it accepts exactly non-empty content containing
both namespace markers, with `sorry` tolerated only in `Verif.lean`; no
check rejects new top-level executable declarations.  Writes to the
statements file are guarded solely by the stage/equivalence gate: a write
to `<project>/Verif.lean` can succeed only in SPECIFICATION, HARDENING or
VERIFICATION with `last_status = success`. -/
theorem anti_smuggling_amended (ctx : SandboxCtx) (fs : FS)
    (rel content : String) :
    ((validateBasicLeanShape rel content).1 = true ↔
      (¬(pyStrip content = "") ∧ strContains content "namespace Src" = true ∧
       strContains content "end Src" = true ∧
       (strEndsWith rel "Verif.lean" = true ∨
        strContains content "sorry" = false))) ∧
    ((writeLeanRel ctx fs (ctx.name ++ "/Verif.lean") content).1.success = true →
      verifStageOpen (pyUpper ctx.currentStage) = true ∧
      ctx.equivLastStatus = "success") := by
  constructor
  · unfold validateBasicLeanShape
    split_ifs with hempty hns hes hsorry <;>
      simp_all [beq_iff_eq, Bool.not_eq_true, Bool.not_eq_false]
    all_goals first
      | tauto
      | (cases hb : strEndsWith rel "Verif.lean" <;> simp_all)
  · intro hsucc
    by_cases hopen : verifStageOpen (pyUpper ctx.currentStage) = true
    · refine ⟨hopen, ?_⟩
      by_cases hst : ctx.equivLastStatus = "success"
      · exact hst
      · exfalso
        have : (writeLeanRel ctx fs (ctx.name ++ "/Verif.lean") content).1.success
            = false := by
          simp [writeLeanRel, hopen, hst]
        rw [this] at hsucc
        cases hsucc
    · exfalso
      have : (writeLeanRel ctx fs (ctx.name ++ "/Verif.lean") content).1.success
          = false := by
        simp [writeLeanRel, hopen]
      rw [this] at hsucc
      cases hsucc

theorem anti_smuggling_amended_witness :
    (validateBasicLeanShape "demo/Verif.lean" smuggledContentW).1 = true ∧
    (writeLeanRel sandboxCtxW fsW ("demo" ++ "/Verif.lean")
        smuggledContentW).1.success = false :=
  ⟨(anti_smuggling_amended sandboxCtxW fsW "demo/Verif.lean" smuggledContentW).1.mpr
      (by decide),
    by
      by_contra hne
      have hacc : (writeLeanRel sandboxCtxW fsW ("demo" ++ "/Verif.lean")
          smuggledContentW).1.success = true := by
        cases hflag : (writeLeanRel sandboxCtxW fsW ("demo" ++ "/Verif.lean")
            smuggledContentW).1.success
        · exact absurd hflag hne
        · rfl
      have h2 := (anti_smuggling_amended sandboxCtxW fsW "demo/Verif.lean"
        smuggledContentW).2 hacc
      exact absurd h2.2 (by decide)⟩

theorem repairProjectLoop_cases (env : Nat → GStep) :
    ∀ r step, (∃ s, repairProjectLoop env r step = .success s ∧ s < step + r) ∨
      (∃ m, repairProjectLoop env r step = .raised m) := by
  intro r
  induction r with
  | zero =>
    intro step
    right
    exact ⟨"Global repair exceeded max steps; refusing to proceed.", rfl⟩
  | succ n ih =>
    intro step
    cases hs : env step with
    | buildOk => left; exact ⟨step, by simp [repairProjectLoop, hs], by omega⟩
    | missingModuleRepair =>
      rcases ih (step + 1) with ⟨s, hres, hlt⟩ | ⟨m, hres⟩
      · left; exact ⟨s, by simp [repairProjectLoop, hs, hres], by omega⟩
      · right; exact ⟨m, by simp [repairProjectLoop, hs, hres]⟩
    | stuckNoError =>
      right
      exact ⟨"Global repair stuck: no actionable error.", by simp [repairProjectLoop, hs]⟩
    | errOutsideRoot =>
      right
      exact ⟨"Error in file not under spec_src_root", by simp [repairProjectLoop, hs]⟩
    | errNotWritable =>
      right
      exact ⟨"Cannot repair locked file", by simp [repairProjectLoop, hs]⟩
    | noSourceMapping =>
      right
      exact ⟨"No source mapping", by simp [repairProjectLoop, hs]⟩
    | fileRepairFailed =>
      right
      exact ⟨"Failed to repair", by simp [repairProjectLoop, hs]⟩
    | fileRepairSucceeded =>
      rcases ih (step + 1) with ⟨s, hres, hlt⟩ | ⟨m, hres⟩
      · left; exact ⟨s, by simp [repairProjectLoop, hs, hres], by omega⟩
      · right; exact ⟨m, by simp [repairProjectLoop, hs, hres]⟩

theorem repairTargetedLoop_cases (env : Nat → TStep) :
    ∀ r step, (∃ s, repairTargetedLoop env r step = .repaired s ∧ s < step + r) ∨
      (∃ s, repairTargetedLoop env r step = .fellBack s ∧ s < step + r) ∨
      (∃ m, repairTargetedLoop env r step = .raised m) ∨
      repairTargetedLoop env r step = .exhaustedReturned := by
  intro r
  induction r with
  | zero => intro step; exact Or.inr (Or.inr (Or.inr rfl))
  | succ n ih =>
    intro step
    cases hs : env step with
    | noParseableErrors =>
      exact Or.inr (Or.inl ⟨step, by simp [repairTargetedLoop, hs], by omega⟩)
    | errorNotInSpec =>
      exact Or.inr (Or.inl ⟨step, by simp [repairTargetedLoop, hs], by omega⟩)
    | fileMissing =>
      exact Or.inr (Or.inl ⟨step, by simp [repairTargetedLoop, hs], by omega⟩)
    | noWriteCall =>
      exact Or.inr (Or.inr (Or.inl
        ⟨"Model did not call write_lean_file in targeted repair.",
          by simp [repairTargetedLoop, hs]⟩))
    | wrote pOut fOut =>
      by_cases hp : strStartsWith pOut "Build Success" = true
      · by_cases hf : strStartsWith fOut "Build Success" = true
        · exact Or.inl ⟨step, by simp [repairTargetedLoop, hs, hp, hf], by omega⟩
        · rcases ih (step + 1) with ⟨s, hres, hlt⟩ | ⟨s, hres, hlt⟩ | ⟨m, hres⟩ | hres
          · exact Or.inl ⟨s, by simp [repairTargetedLoop, hs, hp, hf, hres], by omega⟩
          · exact Or.inr (Or.inl ⟨s,
              by simp [repairTargetedLoop, hs, hp, hf, hres], by omega⟩)
          · exact Or.inr (Or.inr (Or.inl ⟨m,
              by simp [repairTargetedLoop, hs, hp, hf, hres]⟩))
          · exact Or.inr (Or.inr (Or.inr
              (by simp [repairTargetedLoop, hs, hp, hf, hres])))
      · rcases ih (step + 1) with ⟨s, hres, hlt⟩ | ⟨s, hres, hlt⟩ | ⟨m, hres⟩ | hres
        · exact Or.inl ⟨s, by simp [repairTargetedLoop, hs, hp, hres], by omega⟩
        · exact Or.inr (Or.inl ⟨s, by simp [repairTargetedLoop, hs, hp, hres], by omega⟩)
        · exact Or.inr (Or.inr (Or.inl ⟨m, by simp [repairTargetedLoop, hs, hp, hres]⟩))
        · exact Or.inr (Or.inr (Or.inr (by simp [repairTargetedLoop, hs, hp, hres])))

/-- C9 counterexample: with a build that keeps failing and a repair write
at every turn, `repair_until_build_targeted` runs its full 30-iteration
budget and then RETURNS NORMALLY (it only logs "repair loop exhausted;
still failing"), so the caller proceeds — it neither aborts the pipeline
nor raises a hard failure when `maxAttempts` is exceeded. -/
theorem repair_c9_counterexample :
    repairUntilBuildTargeted "Build Failed (exit=1)"
        (fun _ => TStep.wrote "Build Failed" "") =
      RepairOutcome.exhaustedReturned ∧
    ∀ m, repairUntilBuildTargeted "Build Failed (exit=1)"
        (fun _ => TStep.wrote "Build Failed" "") ≠ RepairOutcome.raised m := by
  refine ⟨by decide, ?_⟩
  intro m hm
  rw [show repairUntilBuildTargeted "Build Failed (exit=1)"
      (fun _ => TStep.wrote "Build Failed" "") = RepairOutcome.exhaustedReturned
    from by decide] at hm
  cases hm

/-- C9, amended: both repair loops terminate within `maxAttempts`
iterations for any input and never loop unboundedly.
`_repair_project_until_builds` returns success or raises a hard failure,
raising when the budget is exhausted; `repair_until_build_targeted`
(src/main.py), however, returns normally after exhausting its 30-attempt
budget with the build still failing, so the pipeline can proceed past an
exhausted repair budget there. -/
theorem repair_bounded (maxG : Nat) (genv : Nat → GStep)
    (out : String) (tenv : Nat → TStep) :
    ((∃ s, repairProjectUntilBuilds maxG genv = .success s ∧ s < maxG) ∨
      (∃ m, repairProjectUntilBuilds maxG genv = .raised m)) ∧
    (repairUntilBuildTargeted out tenv = .alreadyPassing ∨
      (∃ s, repairUntilBuildTargeted out tenv = .repaired s ∧ s < MAX_REPAIR_TURNS) ∨
      (∃ s, repairUntilBuildTargeted out tenv = .fellBack s ∧ s < MAX_REPAIR_TURNS) ∨
      (∃ m, repairUntilBuildTargeted out tenv = .raised m) ∨
      repairUntilBuildTargeted out tenv = .exhaustedReturned) := by
  constructor
  · have h := repairProjectLoop_cases genv maxG 0
    simpa [repairProjectUntilBuilds] using h
  · by_cases hb : strStartsWith out "Build Success" = true
    · left; simp [repairUntilBuildTargeted, hb]
    · have h := repairTargetedLoop_cases tenv MAX_REPAIR_TURNS 0
      right
      simpa [repairUntilBuildTargeted, hb] using h

end Anneal
